/-
Verification of the annotator and geometry-adapter subsystem of the
holoviews repository (src/holoviews/annotators.py and
src/holoviews/plotting/bokeh/geometry.py) against its natural-language
specification.

The Python code is shallowly embedded: elements become explicit records
over symbolic values, fallible code returns Except, and instance
attribute lookup is checked against the set of attribute names the
source actually assigns.
-/
import Mathlib

set_option maxRecDepth 4000

namespace HV

/-- A Python value as it appears in annotation columns: None, an int, a
string, or a zero-argument callable (a default-value factory) that
returns `ret` when called. -/
inductive PyVal where
  | pyNone : PyVal
  | int (i : Int) : PyVal
  | str (s : String) : PyVal
  | callable (ret : PyVal) : PyVal
deriving DecidableEq, Repr

/-- The Python errors raised by the embedded code paths. -/
inductive PyError where
  | valueError (msg : String) : PyError
  | attributeError (attr : String) : PyError
  | typeError (msg : String) : PyError
deriving DecidableEq, Repr

/-- Calling a Python value with no arguments: a callable returns its
result, anything else raises a TypeError. -/
def pyCall : PyVal → Except PyError PyVal
  | PyVal.callable r => Except.ok r
  | _ => Except.error (PyError.typeError "object is not callable")

/-- The `annotations` / `vertex_annotations` parameter value: either a dict
mapping column names to default-value factories, or a plain list of
column names (annotators.py lines 122 and 243). -/
inductive AnnSpec where
  | dictSpec (entries : List (String × PyVal)) : AnnSpec
  | listSpec (cols : List String) : AnnSpec
deriving DecidableEq, Repr

/-- Iterating an annotation spec: a dict yields its (key, value) pairs in
order, a list yields its column names with no default value.  This models
the source pattern `for col in self.annotations` followed by
`self.annotations[col]` on the dict branch. -/
def AnnSpec.items : AnnSpec → List (String × Option PyVal)
  | AnnSpec.dictSpec entries => entries.map (fun p => (p.1, some p.2))
  | AnnSpec.listSpec cols => cols.map (fun c => (c, none))

/-- Insert a string at a given position of a list (the element library's
dimension insertion at `dim_pos`). -/
def insertAt : Nat → String → List String → List String
  | 0, c, xs => c :: xs
  | _ + 1, c, [] => [c]
  | n + 1, c, x :: xs => x :: insertAt n c xs

/-- The value of one column within one path of a multi-path element:
either a per-path scalar or a per-vertex array. -/
inductive ColVal where
  | scalar (v : PyVal) : ColVal
  | arr (vs : List PyVal) : ColVal
deriving DecidableEq, Repr

/-- Whether a column value is constant: a scalar always is, an array is
when all entries equal the first. -/
def ColVal.isConstant : ColVal → Bool
  | ColVal.scalar _ => true
  | ColVal.arr [] => true
  | ColVal.arr (v :: rest) => rest.all (fun w => decide (w = v))

/-- One path of a multitabular Path element: its vertex count and its
columns (a dict from column name to data, as in `element.data` entries). -/
structure PathData where
  nv : Nat
  cols : List (String × ColVal)
deriving DecidableEq, Repr

/-- Modelled from the spec: a Path element of the element/geometry library
(a typed geometric dataset with key and value dimensions, spec sections 3
and 6), stored in the multitabular form used by the annotators: a datatype
priority list and a list of per-path column dicts. -/
structure PathElement where
  kdims : List String
  vdims : List String
  datatype : List String
  data : List PathData
deriving DecidableEq, Repr

/-- Membership test `col in element`: the name matches one of the element
dimensions.  Modelled from the spec: elements expose their key and value
dimensions (spec section 3). -/
def PathElement.hasDim (el : PathElement) (c : String) : Bool :=
  decide (c ∈ el.kdims) || decide (c ∈ el.vdims)

/-- Modelled from the spec: `add_dimension(col, dim_pos, init, vdim=True)`
(spec section 6) adds a new value dimension at the given position, filled
with the default value broadcast across every vertex of every path. -/
def PathElement.add_dimension (el : PathElement) (c : String) (pos : Nat)
    (init : PyVal) (_vdim : Bool) : PathElement :=
  { el with
    vdims := insertAt pos c el.vdims,
    data := el.data.map (fun p =>
      { p with cols := (c, ColVal.arr (List.replicate p.nv init)) :: p.cols }) }

/-- The per-path values of one column, in path order (`none` when a path
lacks the column). -/
def PathElement.colValues (el : PathElement) (c : String) : List (Option ColVal) :=
  el.data.map (fun p => (p.cols.find? (fun q => q.1 == c)).map (fun q => q.2))

/-- Whether the column is constant within every path of the element. -/
def PathElement.constantPerPath (el : PathElement) (c : String) : Bool :=
  el.data.all (fun p =>
    match p.cols.find? (fun q => q.1 == c) with
    | some q => q.2.isConstant
    | none => true)

/-- Modelled from the spec: `.options()` returns a styled clone of the
element (spec section 6); styling is not part of the data model, so the
dimensions and data are unchanged. -/
def PathElement.options (el : PathElement) : PathElement := el

/-- The datatype priority list declared on the Path element type.
Modelled from the spec: only membership of the multitabular format
matters to the embedded code (annotators.py lines 253 to 255). -/
def pathDatatypeDefault : List String :=
  ["multitabular", "dictionary", "dataframe", "array"]

/-- The empty Path element built by `self._element_type(None, datatype=datatype)`
(annotators.py lines 252 to 256) with multitabular moved to the end of the
datatype priority list. -/
def emptyPathElement : PathElement :=
  { kdims := ["x", "y"], vdims := [],
    datatype := (pathDatatypeDefault.erase "multitabular") ++ ["multitabular"],
    data := [] }

/-- The empty Path element built by `self._element_type(element)` with no
datatype juggling (BoxAnnotator._init_element, annotators.py line 402). -/
def emptyBoxElement : PathElement :=
  { kdims := ["x", "y"], vdims := [], datatype := pathDatatypeDefault, data := [] }

/-- Modelled from the spec: a Points element (spec sections 3 and 4.3):
key and value dimension names, the number of points, and the column data. -/
structure PointsElement where
  kdims : List String
  vdims : List String
  n : Nat
  cols : List (String × List PyVal)
deriving DecidableEq, Repr

/-- Membership test `col in object` for Points. -/
def PointsElement.hasDim (el : PointsElement) (c : String) : Bool :=
  decide (c ∈ el.kdims) || decide (c ∈ el.vdims)

/-- Modelled from the spec: `add_dimension` on a Points element adds a
value dimension filled with the default value for every point. -/
def PointsElement.add_dimension (el : PointsElement) (c : String) (pos : Nat)
    (init : PyVal) (_vdim : Bool) : PointsElement :=
  { el with
    vdims := insertAt pos c el.vdims,
    cols := (c, List.replicate el.n init) :: el.cols }

/-- The data of one column of a Points element. -/
def PointsElement.colLookup (el : PointsElement) (c : String) : Option (List PyVal) :=
  (el.cols.find? (fun q => q.1 == c)).map (fun q => q.2)

/-- Modelled from the spec: `.options()` leaves the Points data unchanged. -/
def PointsElement.options (el : PointsElement) : PointsElement := el

/-- The empty Points element built by `self._element_type(object)`
(annotators.py line 363). -/
def emptyPointsElement : PointsElement :=
  { kdims := ["x", "y"], vdims := [], n := 0, cols := [] }

/-- The attribute names a PathAnnotator instance ever carries, collected
from the source: the parameters declared on Annotator (annotators.py lines
122 to 141) and PathAnnotator (lines 234 to 247), the parameterized object
name, and every `self.<name> = ...` assignment in Annotator.__init__ (lines
169 to 176), _initialize (lines 181 to 192), PathAnnotator._init_element
(line 287) and PathAnnotator._init_table (lines 289 to 315), including the
conditionally assigned vertex stream.  No other attribute name is ever
defined on the instance or on the classes of this file. -/
def pathAnnotatorAttrNames : List String :=
  ["name", "annotations", "object", "num_objects", "opts", "table_transforms",
   "table_opts", "edit_vertices", "show_vertices", "vertex_annotations",
   "vertex_style", "_tables", "editor", "_selection", "plot", "layout",
   "_stream", "_vertex_stream", "_table", "_link", "_vertex_table",
   "_vertex_link"]

/-- The attribute names a PointAnnotator instance ever carries: the
Annotator parameters plus the assignments in Annotator.__init__,
_initialize and PointAnnotator._init_table (annotators.py lines 378 to
388). -/
def pointAnnotatorAttrNames : List String :=
  ["name", "annotations", "object", "num_objects", "opts", "table_transforms",
   "table_opts", "_tables", "editor", "_selection", "plot", "layout",
   "_stream", "_table", "_point_link", "_point_selection_link"]

/-- The attribute names a BoxAnnotator instance ever carries: the Annotator
parameters plus the assignments in Annotator.__init__, _initialize and
BoxAnnotator._init_table (annotators.py lines 417 to 426). -/
def boxAnnotatorAttrNames : List String :=
  ["name", "annotations", "object", "num_objects", "opts", "table_transforms",
   "table_opts", "_tables", "editor", "_selection", "plot", "layout",
   "_stream", "_table", "_point_link"]

/-- Python attribute lookup on an instance: the lookup succeeds exactly
when the name is among the attributes the instance carries, and raises
AttributeError otherwise. -/
def getattrCheck (attrs : List String) (attr : String) : Except PyError Unit :=
  if attrs.contains attr then Except.ok () else
    Except.error (PyError.attributeError attr)

/-- Attribute lookup on a PathAnnotator instance. -/
def pathAnnotatorGetattr (attr : String) : Except PyError Unit :=
  getattrCheck pathAnnotatorAttrNames attr

/-- Attribute lookup on a PointAnnotator instance. -/
def pointAnnotatorGetattr (attr : String) : Except PyError Unit :=
  getattrCheck pointAnnotatorAttrNames attr

/-- Attribute lookup on a BoxAnnotator instance. -/
def boxAnnotatorGetattr (attr : String) : Except PyError Unit :=
  getattrCheck boxAnnotatorAttrNames attr

/-- The default value PointAnnotator._init_element (annotators.py line 369)
and BoxAnnotator._init_element (line 408) compute for a missing column:
`init = self.annotations[col] if isinstance(self.annotations, dict) else None`.
The dict value is used directly, without being called. -/
def rawAnnDefault : Option PyVal → PyVal
  | some v => v
  | none => PyVal.pyNone

/-- The default value PathAnnotator._init_element computes for a missing
column (annotators.py lines 264 and 269 to 272):
`init = self.annotations[col]() if isinstance(self.annotations, dict) else ''`.
The dict value is called; a non-callable value raises a TypeError. -/
def pathAnnDefault : Option PyVal → Except PyError PyVal
  | some v => pyCall v
  | none => Except.ok (PyVal.str "")

/-- The annotation loop of PathAnnotator._init_element (annotators.py lines
258 to 265): a column already on the element is recorded in `validate`, a
missing one is added with its computed default. -/
def pathFoldCols : List (String × Option PyVal) → PathElement → List String →
    Except PyError (PathElement × List String)
  | [], el, validate => Except.ok (el, validate)
  | ci :: rest, el, validate =>
    if el.hasDim ci.1 then
      pathFoldCols rest el (validate ++ [ci.1])
    else do
      let init ← pathAnnDefault ci.2
      pathFoldCols rest (el.add_dimension ci.1 0 init true) validate

/-- The vertex annotation loop of PathAnnotator._init_element (annotators.py
lines 266 to 273): a missing column is added with its computed default. -/
def pathVertexFoldCols : List (String × Option PyVal) → PathElement →
    Except PyError PathElement
  | [], el => Except.ok el
  | ci :: rest, el =>
    if el.hasDim ci.1 then
      pathVertexFoldCols rest el
    else do
      let init ← pathAnnDefault ci.2
      pathVertexFoldCols rest (el.add_dimension ci.1 0 init true)

/-- The annotation loop of PointAnnotator._init_element (annotators.py lines
366 to 370): a column already on the element is skipped, a missing one is
added with the uncalled dict value (or None for a list spec). -/
def pointFoldCols : List (String × Option PyVal) → PointsElement → PointsElement
  | [], el => el
  | ci :: rest, el =>
    if el.hasDim ci.1 then pointFoldCols rest el
    else pointFoldCols rest (el.add_dimension ci.1 0 (rawAnnDefault ci.2) true)

/-- The annotation loop of BoxAnnotator._init_element (annotators.py lines
405 to 409): same shape as the Points loop, operating on the Path element. -/
def boxFoldCols : List (String × Option PyVal) → PathElement → PathElement
  | [], el => el
  | ci :: rest, el =>
    if el.hasDim ci.1 then boxFoldCols rest el
    else boxFoldCols rest (el.add_dimension ci.1 0 (rawAnnDefault ci.2) true)

/-- PathAnnotator._init_element (annotators.py lines 251 to 287).  The
validation block (lines 275 to 281) builds
`poly_data = {c: self.element.dimension_values(c, expanded=False) for c in validate}`:
the comprehension evaluates `self.element` once per entry of `validate`, and a
PathAnnotator instance has no attribute named `element` (see
`pathAnnotatorAttrNames`), so a nonempty `validate` raises AttributeError
there; the length comparison and its descriptive ValueError (lines 278 to
281) are guarded by `validate` being nonempty and are therefore
unreachable.  An empty `validate` builds an empty dict and skips the
check.  The final lines (283 to 287) attach tools and styling options,
which leave the element data unchanged, and store the result in
`self.object` (the returned value). -/
def pathInitElement (anns vertexAnns : AnnSpec) (element0 : Option PathElement) :
    Except PyError PathElement := do
  let element := match element0 with
    | none => emptyPathElement
    | some e => e
  let r ← pathFoldCols anns.items element []
  let element2 ← pathVertexFoldCols vertexAnns.items r.1
  let _ ← r.2.mapM (fun _c => pathAnnotatorGetattr "element")
  Except.ok element2.options

/-- PointAnnotator._init_element (annotators.py lines 361 to 376): build an
empty Points element if none is given, add the missing declared columns
with their uncalled defaults, and apply the styling options. -/
def pointInitElement (anns : AnnSpec) (object0 : Option PointsElement) :
    PointsElement :=
  (pointFoldCols anns.items (object0.getD emptyPointsElement)).options

/-- BoxAnnotator._init_element (annotators.py lines 400 to 415): build an
empty Path element if none is given, add the missing declared columns with
their uncalled defaults, and apply the styling options. -/
def boxInitElement (anns : AnnSpec) (element0 : Option PathElement) :
    PathElement :=
  (boxFoldCols anns.items (element0.getD emptyBoxElement)).options

/-- The distinct values of a list in order of first appearance. -/
def uniqueList : List PyVal → List PyVal :=
  fun vs => vs.foldl (fun acc v => if v ∈ acc then acc else acc ++ [v]) []

/-- Modelled from the spec: `dimension_values(dim, expanded=False)` on a
single split path (spec section 6) returns the distinct values of that
dimension, in appearance order; a per-path scalar yields a single value. -/
def PathData.unexpandedValues (p : PathData) (c : String) : List PyVal :=
  match p.cols.find? (fun q => q.1 == c) with
  | some q =>
    match q.2 with
    | ColVal.arr vs => uniqueList vs
    | ColVal.scalar v => [v]
  | none => []

/-- The table state PathAnnotator._init_table builds (annotators.py lines
289 to 315): the per-path annotation table data
`{a: [d.dimension_values(a, expanded=False)[0] for d in table_data] for a in annotations}`
and the schema of the vertex table `Table([], self.object.kdims,
list(self.vertex_annotations))`.  The draw and edit streams and the links
carry no element data of their own.  The `[0]` indexing of a path with no
values cannot arise for the columns added by _init_element and is modelled
as a None placeholder. -/
structure PathTables where
  table : List (String × List PyVal)
  vertexKdims : List String
  vertexVdims : List String
deriving DecidableEq, Repr

/-- PathAnnotator._init_table (annotators.py lines 289 to 315), restricted
to the element and table data it derives (table_transforms defaults to the
empty hook list, so `_table_data()` is the object itself and `.split()`
yields its paths). -/
def pathInitTable (anns vertexAnns : AnnSpec) (object : PathElement) : PathTables :=
  { table := anns.items.map (fun ci =>
      (ci.1, object.data.map (fun p => (p.unexpandedValues ci.1).headD PyVal.pyNone))),
    vertexKdims := object.kdims,
    vertexVdims := vertexAnns.items.map (fun ci => ci.1) }

/-- The element and table state of a PathAnnotator that Annotator._initialize
reads and writes: the two annotation spec parameters, the `object` parameter
and the current tables. -/
structure PathAnnotatorState where
  anns : AnnSpec
  vertexAnns : AnnSpec
  object : Option PathElement
  tables : Option PathTables
deriving DecidableEq, Repr

/-- Annotator._initialize for a PathAnnotator (annotators.py lines 181 to
192): take the current object when no argument is given, run _init_element
(which stores the annotated element in `object`), rebuild the tables from it
with _init_table, and rewire selection source, editor contents and stream
subscriber (which carry no element or table data of their own). -/
def pathInitialize (st : PathAnnotatorState) (objectArg : Option PathElement) :
    Except PyError PathAnnotatorState := do
  let object := match objectArg with
    | none => st.object
    | some o => some o
  let newObject ← pathInitElement st.anns st.vertexAnns object
  let tables := pathInitTable st.anns st.vertexAnns newObject
  Except.ok { st with object := some newObject, tables := some tables }

/-- The collapse loop of PathAnnotator._update_element (annotators.py lines
319 to 324): on multitabular dict data, every per-path annotation column
whose value is a nonempty array is collapsed to its first entry. -/
def collapseToScalar (anns : AnnSpec) (element : PathElement) : PathElement :=
  if element.data ≠ [] then
    { element with data := element.data.map (fun p =>
        { p with cols := p.cols.map (fun q =>
            if (anns.items.map (fun ci => ci.1)).contains q.1 then
              (q.1, match q.2 with
                    | ColVal.arr (v :: _) => ColVal.scalar v
                    | cv => cv)
            else q) }) }
  else element

/-- PathAnnotator._update_element (annotators.py lines 317 to 326): line 318
reads `self._poly_stream.element`, but the draw stream is stored as
`self._stream` in _init_table (line 291) and no attribute named
`_poly_stream` is ever assigned (see `pathAnnotatorAttrNames`), so the
lookup raises AttributeError; the collapse of broadcast per-vertex values
and the commit into `self.object` (lines 319 to 326) are unreachable. -/
def pathUpdateElement (anns : AnnSpec) (streamElement : PathElement) :
    Except PyError PathElement := do
  let _ ← pathAnnotatorGetattr "_poly_stream"
  Except.ok (collapseToScalar anns streamElement)

/-- PathAnnotator.selected (annotators.py lines 328 to 332): reads the
selection index, filters the split paths of the stream element by it, and
returns `self.output.clone(data)`; no attribute named `output` is ever
assigned on the instance (see `pathAnnotatorAttrNames`), so the final
lookup raises AttributeError.  The unreachable clone is modelled as the
stream element carrying the filtered paths. -/
def pathSelected (index : List Nat) (streamElement : PathElement) :
    Except PyError PathElement := do
  let data := ((streamElement.data.enum.filter (fun ip => index.contains ip.1)).map
    (fun ip => ip.2))
  let _ ← pathAnnotatorGetattr "output"
  Except.ok { streamElement with data := data }

/-- PointAnnotator.selected (annotators.py lines 390 to 392): evaluates
`self.object.iloc[self._point_selection.index]`; the instance stores the
selection stream as `_selection` and the selection link as
`_point_selection_link`, but never an attribute named `_point_selection`
(see `pointAnnotatorAttrNames`), so the index lookup raises AttributeError
and the row subset is unreachable (modelled as the object itself). -/
def pointSelected (object : PointsElement) : Except PyError PointsElement := do
  let _ ← pointAnnotatorGetattr "_point_selection"
  Except.ok object

/-- BoxAnnotator.selected (annotators.py lines 428 to 432): same code shape
as PathAnnotator.selected, and likewise no attribute named `output` exists
on the instance (see `boxAnnotatorAttrNames`). -/
def boxSelected (index : List Nat) (streamElement : PathElement) :
    Except PyError PathElement := do
  let data := ((streamElement.data.enum.filter (fun ip => index.contains ip.1)).map
    (fun ip => ip.2))
  let _ ← boxAnnotatorGetattr "output"
  Except.ok { streamElement with data := data }

/-- An element as seen by the geometry adapters
(src/holoviews/plotting/bokeh/geometry.py): four key dimensions, each a
column of n coordinate values, accessed by `element.dimension_values(kd)`
for kd in 0..3. -/
structure GeomElement where
  n : Nat
  dims : Fin 4 → Fin n → ℚ

/-- The segment plot state: the axis inversion flag consulted by get_data. -/
structure SegmentPlot where
  invert_axes : Bool

/-- The keyed data SegmentPlot.get_data returns (geometry.py line 24). -/
structure SegmentData (n : Nat) where
  x0 : Fin n → ℚ
  x1 : Fin n → ℚ
  y0 : Fin n → ℚ
  y1 : Fin n → ℚ

/-- SegmentPlot.get_data (geometry.py lines 21 to 26): pick the dimension
index order from the inversion flag and return the four coordinate columns
keyed as x0, x1, y0, y1, with no value transformation. -/
def SegmentPlot.get_data (self : SegmentPlot) (element : GeomElement) :
    SegmentData element.n :=
  match (if self.invert_axes then
           ((1 : Fin 4), (0 : Fin 4), (3 : Fin 4), (2 : Fin 4))
         else ((0 : Fin 4), (1 : Fin 4), (2 : Fin 4), (3 : Fin 4))) with
  | (i0, i1, i2, i3) =>
    { x0 := element.dims i0, y0 := element.dims i1,
      x1 := element.dims i2, y1 := element.dims i3 }

/-- The rectangles plot state: the axis inversion flag consulted by
get_data. -/
structure RectanglesPlot where
  invert_axes : Bool

/-- The keyed data RectanglesPlot.get_data returns (geometry.py line 42). -/
structure RectData (n : Nat) where
  x : Fin n → ℚ
  y : Fin n → ℚ
  width : Fin n → ℚ
  height : Fin n → ℚ

/-- RectanglesPlot.get_data (geometry.py lines 37 to 44): pick the
dimension index order from the inversion flag, take the element-wise
min and max across the two corners, and return centered x, y with width
and height. -/
def RectanglesPlot.get_data (self : RectanglesPlot) (element : GeomElement) :
    RectData element.n :=
  match (if self.invert_axes then
           ((1 : Fin 4), (0 : Fin 4), (3 : Fin 4), (2 : Fin 4))
         else ((0 : Fin 4), (1 : Fin 4), (2 : Fin 4), (3 : Fin 4))) with
  | (i0, i1, i2, i3) =>
    let x0 := element.dims i0
    let y0 := element.dims i1
    let x1 := element.dims i2
    let y1 := element.dims i3
    let xlo := fun j => min (x0 j) (x1 j)
    let xhi := fun j => max (x0 j) (x1 j)
    let ylo := fun j => min (y0 j) (y1 j)
    let yhi := fun j => max (y0 j) (y1 j)
    { x := fun j => (xhi j + xlo j) / 2,
      y := fun j => (yhi j + ylo j) / 2,
      width := fun j => xhi j - xlo j,
      height := fun j => yhi j - ylo j }

/-- The concrete Annotator subclasses of annotators.py. -/
inductive AnnKind where
  | pathKind : AnnKind
  | polyKind : AnnKind
  | pointKind : AnnKind
  | boxKind : AnnKind
deriving DecidableEq, Repr

/-- The parameter names declared on the Annotator base class (annotators.py
lines 122 to 141) together with the parameterized name and the layout
parameters contributed by the external pane base class (spec section 6:
the widget toolkit pane; its standard layout options are listed and none
of them is named element). -/
def annotatorBaseParams : List String :=
  ["name", "annotations", "object", "num_objects", "opts", "table_transforms",
   "table_opts", "default_layout", "width", "height", "min_width", "min_height",
   "max_width", "max_height", "sizing_mode", "margin", "css_classes",
   "background", "aspect_ratio", "visible", "loading"]

/-- The declared parameters of each Annotator subclass: the base parameters
plus the subclass declarations (annotators.py lines 234 to 247 for
PathAnnotator and PolyAnnotator; PointAnnotator and BoxAnnotator only
override existing parameters). -/
def declaredParams : AnnKind → List String
  | AnnKind.pathKind => annotatorBaseParams ++
      ["edit_vertices", "show_vertices", "vertex_annotations", "vertex_style"]
  | AnnKind.polyKind => annotatorBaseParams ++
      ["edit_vertices", "show_vertices", "vertex_annotations", "vertex_style"]
  | AnnKind.pointKind => annotatorBaseParams
  | AnnKind.boxKind => annotatorBaseParams

/-- Registering a change watcher on a parameter name with the reactive
parameter framework (spec section 6: declarative parameters with
change-triggered watchers): the framework validates the name against the
declared parameters of the instance and raises a ValueError for a name
that is not declared. -/
def paramWatch (declared : List String) (pname : String) : Except PyError Unit :=
  if declared.contains pname then Except.ok () else
    Except.error (PyError.valueError
      "parameter was not found in list of parameters")

/-- A layer handed to AnnotationManager.add_layer: an Annotator of some
subclass, a plain element, or any other Python object. -/
inductive Layer where
  | annL (kind : AnnKind) : Layer
  | elemL (id : Nat) : Layer
  | otherL (id : Nat) : Layer
deriving DecidableEq, Repr

/-- A mutable store of layer lists: each allocated list lives at a numeric
reference, so that sharing of one underlying list object between two
managers is observable. -/
structure Heap where
  next : Nat
  store : Nat → List Layer

/-- Allocate a fresh layer list initialized with a copy of the given
contents. -/
def allocLayers (h : Heap) (init : List Layer) : Heap × Nat :=
  ({ next := h.next + 1,
     store := fun i => if i = h.next then init else h.store i }, h.next)

/-- Append a layer to the list stored at a reference. -/
def heapAppend (h : Heap) (r : Nat) (l : Layer) : Heap :=
  { h with store := fun i => if i = r then h.store i ++ [l] else h.store i }

/-- An AnnotationManager instance: it holds a reference to its layers
list.  The `layers = param.List(default=[])` declaration (annotators.py
lines 51 and 52) instantiates its default per instance (spec section 6:
declarative parameters with defaults; the framework gives every instance
its own copy of a container default), which `managerInit` models by
allocating a fresh list. -/
structure AnnotationManager where
  layersRef : Nat
deriving DecidableEq, Repr

/-- The error message of annotators.py lines 106 and 107. -/
def addLayerErrorMsg : String :=
  "Annotator layer must be a Annotator subclass or a HoloViews/GeoViews element."

/-- AnnotationManager.add_layer (annotators.py lines 94 to 109): an
Annotator layer first gets a watcher registered on its parameter named
element; an object that is neither an Annotator nor an Element raises the
descriptive ValueError before the append; otherwise the layer is appended
to the managed list and the layers event is triggered (the trigger carries
no layer data).  A raise leaves the heap exactly as it was. -/
def AnnotationManager.add_layer (h : Heap) (m : AnnotationManager) (layer : Layer) :
    Option PyError × Heap :=
  match layer with
  | Layer.annL k =>
    match paramWatch (declaredParams k) "element" with
    | Except.error e => (some e, h)
    | Except.ok _ => (none, heapAppend h m.layersRef layer)
  | Layer.elemL _ => (none, heapAppend h m.layersRef layer)
  | Layer.otherL _ => (some (PyError.valueError addLayerErrorMsg), h)

/-- AnnotationManager.__init__ (annotators.py lines 60 to 67): allocate the
per-instance layers list from the class default, then add each layer of the
`layers` argument via add_layer; the argument list itself is only iterated,
never stored.  A raise from add_layer aborts the loop.  The plot, editor
and layout panes carry no layer list data. -/
def managerInit (h : Heap) (layersArg : List Layer) :
    Option PyError × (Heap × AnnotationManager) :=
  match allocLayers h [] with
  | (h1, r) =>
    let m : AnnotationManager := { layersRef := r }
    let result := layersArg.foldl (fun acc l =>
      match acc with
      | (some e, hh) => (some e, hh)
      | (none, hh) => AnnotationManager.add_layer hh m l) ((none : Option PyError), h1)
    (result.1, (result.2, m))

/-- A concrete two-vertex Path element already carrying a color column that
is constant within its single path. -/
def exPathConstant : PathElement :=
  { kdims := ["x", "y"], vdims := ["color"], datatype := ["multitabular"],
    data := [{ nv := 2,
               cols := [("x", ColVal.arr [PyVal.int 0, PyVal.int 1]),
                        ("y", ColVal.arr [PyVal.int 0, PyVal.int 1]),
                        ("color", ColVal.arr [PyVal.str "A", PyVal.str "A"])] }] }

/-- A concrete two-vertex Path element whose color column varies across the
vertices of its single path. -/
def exPathVarying : PathElement :=
  { kdims := ["x", "y"], vdims := ["color"], datatype := ["multitabular"],
    data := [{ nv := 2,
               cols := [("x", ColVal.arr [PyVal.int 0, PyVal.int 1]),
                        ("y", ColVal.arr [PyVal.int 0, PyVal.int 1]),
                        ("color", ColVal.arr [PyVal.str "A", PyVal.str "B"])] }] }

/-- A concrete two-vertex Path element with no annotation columns. -/
def exPathPlain : PathElement :=
  { kdims := ["x", "y"], vdims := [], datatype := ["multitabular"],
    data := [{ nv := 2,
               cols := [("x", ColVal.arr [PyVal.int 0, PyVal.int 1]),
                        ("y", ColVal.arr [PyVal.int 0, PyVal.int 1])] }] }

/-- A concrete one-point Points element with no annotation columns. -/
def exPoints : PointsElement :=
  { kdims := ["x", "y"], vdims := [], n := 1,
    cols := [("x", [PyVal.int 0]), ("y", [PyVal.int 0])] }

/-- A PathAnnotator parameter state declaring one annotation column and no
initial object: the state from which Annotator.__init__ runs _initialize. -/
def pathIdemStart : PathAnnotatorState :=
  { anns := AnnSpec.listSpec ["color"], vertexAnns := AnnSpec.listSpec [],
    object := none, tables := none }

/-- An empty heap of layer lists. -/
def exHeap : Heap := { next := 0, store := fun _ => [] }

/-- Claim C1: the spec says an already present per-path annotation column
makes initialization succeed when its data is constant within every path
and raise the descriptive validation error when it varies.  In the code,
any already present annotation column puts its name into `validate`, and
building `poly_data` then reads `self.element`, an attribute no
PathAnnotator ever defines, so both the constant and the varying case
raise AttributeError instead: the success branch of the claim fails
outright and the error branch raises the wrong error. -/
theorem pathInit_presentColumn_raises :
    exPathConstant.constantPerPath "color" = true ∧
    pathInitElement (AnnSpec.listSpec ["color"]) (AnnSpec.listSpec [])
        (some exPathConstant)
      = Except.error (PyError.attributeError "element") ∧
    exPathVarying.constantPerPath "color" = false ∧
    pathInitElement (AnnSpec.listSpec ["color"]) (AnnSpec.listSpec [])
        (some exPathVarying)
      = Except.error (PyError.attributeError "element") ∧
    "element" ∉ pathAnnotatorAttrNames :=
  ⟨rfl, rfl, rfl, rfl, by decide⟩

/-- Claim C2: the spec says add_layer on an Annotator succeeds, appends the
annotator and subscribes to its element-change notifications.  The code
watches a parameter named element, which no Annotator subclass declares
(the editable element lives in the parameter named object), so the watch
registration raises ValueError before the append and the manager state is
left unchanged. -/
theorem add_layer_annotator_raises (h : Heap) (m : AnnotationManager) (k : AnnKind) :
    (AnnotationManager.add_layer h m (Layer.annL k)).1
      = some (PyError.valueError "parameter was not found in list of parameters") ∧
    (AnnotationManager.add_layer h m (Layer.annL k)).2 = h ∧
    "element" ∉ declaredParams k ∧
    "object" ∈ declaredParams k := by
  cases k <;> exact ⟨rfl, rfl, by decide, by decide⟩

/-- Claim C3: RectanglesPlot.get_data returns nonnegative width |x1 - x0|
and height |y1 - y0| and the true rectangle center, equal to
(min + max) / 2 of the corner coordinates computed element-wise, for
corners supplied in either diagonal order. -/
theorem rect_get_data_center_and_size (e : GeomElement) (j : Fin e.n) :
    (RectanglesPlot.get_data ⟨false⟩ e).width j = |e.dims 2 j - e.dims 0 j| ∧
    0 ≤ (RectanglesPlot.get_data ⟨false⟩ e).width j ∧
    (RectanglesPlot.get_data ⟨false⟩ e).height j = |e.dims 3 j - e.dims 1 j| ∧
    0 ≤ (RectanglesPlot.get_data ⟨false⟩ e).height j ∧
    (RectanglesPlot.get_data ⟨false⟩ e).x j
      = (min (e.dims 0 j) (e.dims 2 j) + max (e.dims 0 j) (e.dims 2 j)) / 2 ∧
    (RectanglesPlot.get_data ⟨false⟩ e).x j = (e.dims 0 j + e.dims 2 j) / 2 ∧
    (RectanglesPlot.get_data ⟨false⟩ e).y j
      = (min (e.dims 1 j) (e.dims 3 j) + max (e.dims 1 j) (e.dims 3 j)) / 2 ∧
    (RectanglesPlot.get_data ⟨false⟩ e).y j = (e.dims 1 j + e.dims 3 j) / 2 := by
  refine ⟨?_, ?_, ?_, ?_, ?_, ?_, ?_, ?_⟩
  · exact max_sub_min_eq_abs (e.dims 0 j) (e.dims 2 j)
  · exact sub_nonneg.mpr min_le_max
  · exact max_sub_min_eq_abs (e.dims 1 j) (e.dims 3 j)
  · exact sub_nonneg.mpr min_le_max
  · show (max _ _ + min _ _) / 2 = (min _ _ + max _ _) / 2
    rw [add_comm]
  · show (max _ _ + min _ _) / 2 = _
    rw [add_comm, min_add_max]
  · show (max _ _ + min _ _) / 2 = (min _ _ + max _ _) / 2
    rw [add_comm]
  · show (max _ _ + min _ _) / 2 = _
    rw [add_comm, min_add_max]

/-- Claim C5: an object that is neither an Annotator nor an element makes
add_layer raise the descriptive error about the required layer types, and
the heap of layer lists, hence the managed layers list, is exactly as
before the call. -/
theorem add_layer_rejects_foreign (h : Heap) (m : AnnotationManager) (i : Nat) :
    (AnnotationManager.add_layer h m (Layer.otherL i)).1
      = some (PyError.valueError addLayerErrorMsg) ∧
    (AnnotationManager.add_layer h m (Layer.otherL i)).2 = h :=
  ⟨rfl, rfl⟩

/-- Claim C6: the spec says an edit-stream update commits the stream's
element snapshot into `object` after collapsing broadcast per-path values.
The code reads `self._poly_stream.element`, but the draw stream is stored
as `_stream` and no attribute named `_poly_stream` is ever assigned, so
every update raises AttributeError and nothing is committed. -/
theorem pathUpdate_stream_attr_missing (anns : AnnSpec) (e : PathElement) :
    pathUpdateElement anns e = Except.error (PyError.attributeError "_poly_stream") ∧
    "_poly_stream" ∉ pathAnnotatorAttrNames ∧
    "_stream" ∈ pathAnnotatorAttrNames :=
  ⟨rfl, by decide, by decide⟩

/-- Claim C7: SegmentPlot.get_data with invert_axes true returns the same
four coordinate arrays as with invert_axes false but with the roles of the
x and y pairs swapped: x0 takes dimension 1, y0 dimension 0, x1 dimension
3 and y1 dimension 2, with no other transformation of any value. -/
theorem segment_get_data_invert_swaps (e : GeomElement) :
    (SegmentPlot.get_data ⟨true⟩ e).x0 = e.dims 1 ∧
    (SegmentPlot.get_data ⟨true⟩ e).y0 = e.dims 0 ∧
    (SegmentPlot.get_data ⟨true⟩ e).x1 = e.dims 3 ∧
    (SegmentPlot.get_data ⟨true⟩ e).y1 = e.dims 2 ∧
    (SegmentPlot.get_data ⟨true⟩ e).x0 = (SegmentPlot.get_data ⟨false⟩ e).y0 ∧
    (SegmentPlot.get_data ⟨true⟩ e).y0 = (SegmentPlot.get_data ⟨false⟩ e).x0 ∧
    (SegmentPlot.get_data ⟨true⟩ e).x1 = (SegmentPlot.get_data ⟨false⟩ e).y1 ∧
    (SegmentPlot.get_data ⟨true⟩ e).y1 = (SegmentPlot.get_data ⟨false⟩ e).x1 :=
  ⟨rfl, rfl, rfl, rfl, rfl, rfl, rfl, rfl⟩

/-- Claim C8: the spec says re-running _initialize from an unchanged
parameter state reproduces the same element and table state.  For a
PathAnnotator that declares an annotation column, the first run succeeds
and adds the column to the element; the second run then finds the column
already present, records it in `validate`, and raises AttributeError
through the undefined `self.element` of the validation block, instead of
reproducing the state. -/
theorem pathInitialize_second_run_raises :
    (∃ st1, pathInitialize pathIdemStart none = Except.ok st1) ∧
    (pathInitialize pathIdemStart none).bind (fun st => pathInitialize st none)
      = Except.error (PyError.attributeError "element") :=
  ⟨⟨_, rfl⟩, rfl⟩

/-- Claim C9: the spec says reading `selected` succeeds and returns a
clone holding the currently selected objects.  All three subclasses crash
instead: PathAnnotator.selected and BoxAnnotator.selected read
`self.output`, and PointAnnotator.selected reads `self._point_selection`,
attributes never assigned on the instances. -/
theorem selected_attr_missing (index : List Nat) (e : PathElement) (p : PointsElement) :
    pathSelected index e = Except.error (PyError.attributeError "output") ∧
    pointSelected p = Except.error (PyError.attributeError "_point_selection") ∧
    boxSelected index e = Except.error (PyError.attributeError "output") ∧
    "output" ∉ pathAnnotatorAttrNames ∧
    "_point_selection" ∉ pointAnnotatorAttrNames ∧
    "output" ∉ boxAnnotatorAttrNames :=
  ⟨rfl, rfl, rfl, by decide, by decide, by decide⟩

/-- Claim C10 counterexample: two managers constructed without an explicit
layers argument do not share a layers list.  After add_layer of element 7
on the first manager, the first manager's list holds the element and the
second manager's list is still empty, at distinct references, refuting the
claimed sharing at this concrete input. -/
theorem manager_layers_not_shared_cex :
    (managerInit exHeap []).1 = none ∧
    (managerInit ((managerInit exHeap []).2.1) []).1 = none ∧
    (AnnotationManager.add_layer (managerInit ((managerInit exHeap []).2.1) []).2.1
        (managerInit exHeap []).2.2 (Layer.elemL 7)).1 = none ∧
    (AnnotationManager.add_layer (managerInit ((managerInit exHeap []).2.1) []).2.1
        (managerInit exHeap []).2.2 (Layer.elemL 7)).2.store
        ((managerInit exHeap []).2.2.layersRef) = [Layer.elemL 7] ∧
    (AnnotationManager.add_layer (managerInit ((managerInit exHeap []).2.1) []).2.1
        (managerInit exHeap []).2.2 (Layer.elemL 7)).2.store
        ((managerInit ((managerInit exHeap []).2.1) []).2.2.layersRef) = [] ∧
    (managerInit exHeap []).2.2.layersRef
      ≠ (managerInit ((managerInit exHeap []).2.1) []).2.2.layersRef :=
  ⟨rfl, rfl, rfl, rfl, rfl, by decide⟩

/-- Claim C10 (amended): construction gives each manager an independent
per-instance layers list (the reactive-parameter framework instantiates
the container default per instance, and the mutable argument default is
only iterated, never stored), so for any two managers constructed without
an explicit layers argument, add_layer of an element on the first leaves
the second manager's layers list empty. -/
theorem manager_layers_independent (h0 : Heap) (eid : Nat) :
    (managerInit h0 []).1 = none ∧
    (managerInit ((managerInit h0 []).2.1) []).1 = none ∧
    (AnnotationManager.add_layer (managerInit ((managerInit h0 []).2.1) []).2.1
        (managerInit h0 []).2.2 (Layer.elemL eid)).1 = none ∧
    (AnnotationManager.add_layer (managerInit ((managerInit h0 []).2.1) []).2.1
        (managerInit h0 []).2.2 (Layer.elemL eid)).2.store
        ((managerInit h0 []).2.2.layersRef) = [Layer.elemL eid] ∧
    (AnnotationManager.add_layer (managerInit ((managerInit h0 []).2.1) []).2.1
        (managerInit h0 []).2.2 (Layer.elemL eid)).2.store
        ((managerInit ((managerInit h0 []).2.1) []).2.2.layersRef) = [] ∧
    (managerInit h0 []).2.2.layersRef
      ≠ (managerInit ((managerInit h0 []).2.1) []).2.2.layersRef := by
  refine ⟨rfl, rfl, rfl, ?_, ?_, Nat.ne_of_lt (Nat.lt_succ_self h0.next)⟩
  · show (if h0.next = h0.next then _ else _) = _
    simp [managerInit, allocLayers, heapAppend]
  · show (if h0.next + 1 = h0.next then _ else _) = _
    simp [managerInit, allocLayers, heapAppend]

/-! Helper lemmas for the annotation-column folds. -/

theorem hvBind_ok {α β : Type} (a : α) (f : α → Except PyError β) :
    (Except.ok a >>= f) = f a := rfl

theorem hvBind_error {α β : Type} (e : PyError) (f : α → Except PyError β) :
    ((Except.error e : Except PyError α) >>= f) = Except.error e := rfl

theorem mem_insertAt (c c0 : String) (pos : Nat) (l : List String) :
    c ∈ insertAt pos c0 l ↔ c = c0 ∨ c ∈ l := by
  induction pos generalizing l with
  | zero => simp [insertAt]
  | succ p ih =>
    cases l with
    | nil => simp [insertAt]
    | cons x xs =>
      simp only [insertAt, List.mem_cons, ih]
      tauto

theorem pointAdd_n (el : PointsElement) (c : String) (pos : Nat) (v : PyVal)
    (b : Bool) : (el.add_dimension c pos v b).n = el.n := rfl

theorem pointAdd_hasDim_ne (el : PointsElement) (c0 c : String) (pos : Nat)
    (v : PyVal) (b : Bool) (h : c0 ≠ c) :
    (el.add_dimension c0 pos v b).hasDim c = el.hasDim c := by
  refine Bool.eq_iff_iff.mpr ?_
  show (decide (c ∈ el.kdims) || decide (c ∈ insertAt pos c0 el.vdims)) = true ↔ _
  simp only [PointsElement.hasDim, Bool.or_eq_true, decide_eq_true_eq, mem_insertAt]
  have h' : ¬ c = c0 := fun hh => h hh.symm
  tauto

theorem pointAdd_colLookup_self (el : PointsElement) (c : String) (pos : Nat)
    (v : PyVal) (b : Bool) :
    (el.add_dimension c pos v b).colLookup c = some (List.replicate el.n v) := by
  show ((((c, List.replicate el.n v) :: el.cols).find? (fun q => q.1 == c)).map
    (fun q => q.2)) = _
  rw [List.find?_cons_of_pos _ (by simp)]
  rfl

theorem pointAdd_colLookup_ne (el : PointsElement) (c0 c : String) (pos : Nat)
    (v : PyVal) (b : Bool) (h : c0 ≠ c) :
    (el.add_dimension c0 pos v b).colLookup c = el.colLookup c := by
  show ((((c0, List.replicate el.n v) :: el.cols).find? (fun q => q.1 == c)).map
    (fun q => q.2)) = _
  rw [List.find?_cons_of_neg _ (by simp [h])]
  rfl

theorem pointFoldCols_preserve (items : List (String × Option PyVal)) :
    ∀ (el : PointsElement) (c : String), c ∉ items.map Prod.fst →
      ((pointFoldCols items el).colLookup c = el.colLookup c ∧
       (pointFoldCols items el).n = el.n ∧
       (pointFoldCols items el).hasDim c = el.hasDim c) := by
  induction items with
  | nil => intro el c _; exact ⟨rfl, rfl, rfl⟩
  | cons ci rest ih =>
    intro el c hc
    rw [List.map_cons] at hc
    have hne : ci.1 ≠ c := fun hh => hc (hh ▸ List.mem_cons_self _ _)
    have hrest : c ∉ rest.map Prod.fst := fun hh => hc (List.mem_cons_of_mem _ hh)
    by_cases hd : el.hasDim ci.1 = true
    · have step : pointFoldCols (ci :: rest) el = pointFoldCols rest el := by
        simp [pointFoldCols, hd]
      rw [step]; exact ih el c hrest
    · have hd' : el.hasDim ci.1 = false := by
        simpa using hd
      have step : pointFoldCols (ci :: rest) el
          = pointFoldCols rest (el.add_dimension ci.1 0 (rawAnnDefault ci.2) true) := by
        simp [pointFoldCols, hd']
      rw [step]
      obtain ⟨l1, l2, l3⟩ :=
        ih (el.add_dimension ci.1 0 (rawAnnDefault ci.2) true) c hrest
      refine ⟨?_, ?_, ?_⟩
      · rw [l1, pointAdd_colLookup_ne el ci.1 c 0 _ true hne]
      · rw [l2, pointAdd_n]
      · rw [l3, pointAdd_hasDim_ne el ci.1 c 0 _ true hne]

theorem pointFoldCols_fill (items : List (String × Option PyVal)) :
    ∀ (el : PointsElement) (c : String) (ov : Option PyVal),
      (items.map Prod.fst).Nodup → (c, ov) ∈ items → el.hasDim c = false →
      (pointFoldCols items el).colLookup c
        = some (List.replicate el.n (rawAnnDefault ov)) := by
  induction items with
  | nil => intro el c ov _ hmem _; cases hmem
  | cons ci rest ih =>
    intro el c ov hnd hmem habs
    rw [List.map_cons, List.nodup_cons] at hnd
    obtain ⟨hhead, hndr⟩ := hnd
    rcases List.mem_cons.mp hmem with heq | hrest
    · obtain ⟨rfl, rfl⟩ : ci.1 = c ∧ ci.2 = ov := by
        cases ci; cases heq; exact ⟨rfl, rfl⟩
      have step : pointFoldCols (ci :: rest) el
          = pointFoldCols rest (el.add_dimension ci.1 0 (rawAnnDefault ci.2) true) := by
        simp [pointFoldCols, habs]
      rw [step]
      obtain ⟨l1, _, _⟩ :=
        pointFoldCols_preserve rest
          (el.add_dimension ci.1 0 (rawAnnDefault ci.2) true) ci.1 hhead
      rw [l1, pointAdd_colLookup_self]
    · have hkey : c ∈ rest.map Prod.fst := List.mem_map_of_mem Prod.fst hrest
      have hne : ci.1 ≠ c := fun hh => hhead (hh ▸ hkey)
      by_cases hd : el.hasDim ci.1 = true
      · have step : pointFoldCols (ci :: rest) el = pointFoldCols rest el := by
          simp [pointFoldCols, hd]
        rw [step]; exact ih el c ov hndr hrest habs
      · have hd' : el.hasDim ci.1 = false := by simpa using hd
        have step : pointFoldCols (ci :: rest) el
            = pointFoldCols rest (el.add_dimension ci.1 0 (rawAnnDefault ci.2) true) := by
          simp [pointFoldCols, hd']
        rw [step]
        have habs1 : (el.add_dimension ci.1 0 (rawAnnDefault ci.2) true).hasDim c = false := by
          rw [pointAdd_hasDim_ne el ci.1 c 0 _ true hne]; exact habs
        exact ih (el.add_dimension ci.1 0 (rawAnnDefault ci.2) true) c ov hndr hrest habs1

theorem pathAdd_hasDim_ne (el : PathElement) (c0 c : String) (pos : Nat)
    (v : PyVal) (b : Bool) (h : c0 ≠ c) :
    (el.add_dimension c0 pos v b).hasDim c = el.hasDim c := by
  refine Bool.eq_iff_iff.mpr ?_
  show (decide (c ∈ el.kdims) || decide (c ∈ insertAt pos c0 el.vdims)) = true ↔ _
  simp only [PathElement.hasDim, Bool.or_eq_true, decide_eq_true_eq, mem_insertAt]
  have h' : ¬ c = c0 := fun hh => h hh.symm
  tauto

theorem pathAdd_hasDim_self (el : PathElement) (c : String) (pos : Nat)
    (v : PyVal) (b : Bool) :
    (el.add_dimension c pos v b).hasDim c = true := by
  show (decide (c ∈ el.kdims) || decide (c ∈ insertAt pos c el.vdims)) = true
  simp [mem_insertAt]

theorem pathAdd_colValues_self (el : PathElement) (c : String) (pos : Nat)
    (v : PyVal) (b : Bool) :
    (el.add_dimension c pos v b).colValues c
      = el.data.map (fun p => some (ColVal.arr (List.replicate p.nv v))) := by
  show (el.data.map _).map _ = _
  rw [List.map_map]
  refine List.map_congr_left ?_
  intro p _
  show ((((c, ColVal.arr (List.replicate p.nv v)) :: p.cols).find?
    (fun q => q.1 == c)).map (fun q => q.2)) = _
  rw [List.find?_cons_of_pos _ (by simp)]
  rfl

theorem pathAdd_colValues_ne (el : PathElement) (c0 c : String) (pos : Nat)
    (v : PyVal) (b : Bool) (h : c0 ≠ c) :
    (el.add_dimension c0 pos v b).colValues c = el.colValues c := by
  show (el.data.map _).map _ = el.data.map _
  rw [List.map_map]
  refine List.map_congr_left ?_
  intro p _
  show ((((c0, ColVal.arr (List.replicate p.nv v)) :: p.cols).find?
    (fun q => q.1 == c)).map (fun q => q.2)) = _
  rw [List.find?_cons_of_neg _ (by simp [h])]

theorem pathAdd_nvShape (el : PathElement) (c0 : String) (pos : Nat)
    (w : PyVal) (b : Bool) (f : Nat → Option ColVal) :
    (el.add_dimension c0 pos w b).data.map (fun p => f p.nv)
      = el.data.map (fun p => f p.nv) := by
  show (el.data.map _).map _ = _
  rw [List.map_map]
  rfl

theorem boxFoldCols_preserve (items : List (String × Option PyVal)) :
    ∀ (el : PathElement) (c : String), c ∉ items.map Prod.fst →
      ((boxFoldCols items el).colValues c = el.colValues c ∧
       (boxFoldCols items el).hasDim c = el.hasDim c ∧
       (∀ f : Nat → Option ColVal,
         (boxFoldCols items el).data.map (fun p => f p.nv)
           = el.data.map (fun p => f p.nv))) := by
  induction items with
  | nil => intro el c _; exact ⟨rfl, rfl, fun _ => rfl⟩
  | cons ci rest ih =>
    intro el c hc
    rw [List.map_cons] at hc
    have hne : ci.1 ≠ c := fun hh => hc (hh ▸ List.mem_cons_self _ _)
    have hrest : c ∉ rest.map Prod.fst := fun hh => hc (List.mem_cons_of_mem _ hh)
    by_cases hd : el.hasDim ci.1 = true
    · have step : boxFoldCols (ci :: rest) el = boxFoldCols rest el := by
        simp [boxFoldCols, hd]
      rw [step]; exact ih el c hrest
    · have hd' : el.hasDim ci.1 = false := by simpa using hd
      have step : boxFoldCols (ci :: rest) el
          = boxFoldCols rest (el.add_dimension ci.1 0 (rawAnnDefault ci.2) true) := by
        simp [boxFoldCols, hd']
      rw [step]
      obtain ⟨l1, l2, l3⟩ :=
        ih (el.add_dimension ci.1 0 (rawAnnDefault ci.2) true) c hrest
      refine ⟨?_, ?_, ?_⟩
      · rw [l1, pathAdd_colValues_ne el ci.1 c 0 _ true hne]
      · rw [l2, pathAdd_hasDim_ne el ci.1 c 0 _ true hne]
      · intro f; rw [l3 f, pathAdd_nvShape]

theorem boxFoldCols_fill (items : List (String × Option PyVal)) :
    ∀ (el : PathElement) (c : String) (ov : Option PyVal),
      (items.map Prod.fst).Nodup → (c, ov) ∈ items → el.hasDim c = false →
      (boxFoldCols items el).colValues c
        = el.data.map (fun p => some (ColVal.arr (List.replicate p.nv (rawAnnDefault ov)))) := by
  induction items with
  | nil => intro el c ov _ hmem _; cases hmem
  | cons ci rest ih =>
    intro el c ov hnd hmem habs
    rw [List.map_cons, List.nodup_cons] at hnd
    obtain ⟨hhead, hndr⟩ := hnd
    rcases List.mem_cons.mp hmem with heq | hrest
    · obtain ⟨rfl, rfl⟩ : ci.1 = c ∧ ci.2 = ov := by
        cases ci; cases heq; exact ⟨rfl, rfl⟩
      have step : boxFoldCols (ci :: rest) el
          = boxFoldCols rest (el.add_dimension ci.1 0 (rawAnnDefault ci.2) true) := by
        simp [boxFoldCols, habs]
      rw [step]
      obtain ⟨l1, _, _⟩ :=
        boxFoldCols_preserve rest
          (el.add_dimension ci.1 0 (rawAnnDefault ci.2) true) ci.1 hhead
      rw [l1, pathAdd_colValues_self]
    · have hkey : c ∈ rest.map Prod.fst := List.mem_map_of_mem Prod.fst hrest
      have hne : ci.1 ≠ c := fun hh => hhead (hh ▸ hkey)
      by_cases hd : el.hasDim ci.1 = true
      · have step : boxFoldCols (ci :: rest) el = boxFoldCols rest el := by
          simp [boxFoldCols, hd]
        rw [step]; exact ih el c ov hndr hrest habs
      · have hd' : el.hasDim ci.1 = false := by simpa using hd
        have step : boxFoldCols (ci :: rest) el
            = boxFoldCols rest (el.add_dimension ci.1 0 (rawAnnDefault ci.2) true) := by
          simp [boxFoldCols, hd']
        rw [step]
        have habs1 : (el.add_dimension ci.1 0 (rawAnnDefault ci.2) true).hasDim c = false := by
          rw [pathAdd_hasDim_ne el ci.1 c 0 _ true hne]; exact habs
        rw [ih (el.add_dimension ci.1 0 (rawAnnDefault ci.2) true) c ov hndr hrest habs1]
        exact pathAdd_nvShape el ci.1 0 (rawAnnDefault ci.2) true
          (fun n => some (ColVal.arr (List.replicate n (rawAnnDefault ov))))

theorem pathFoldCols_preserve (items : List (String × Option PyVal)) :
    ∀ (el : PathElement) (validate : List String) (c : String),
      (items.map Prod.fst).Nodup →
      (∀ ci ∈ items, el.hasDim ci.1 = false) →
      (∀ ci ∈ items, ∃ w, pathAnnDefault ci.2 = Except.ok w) →
      c ∉ items.map Prod.fst →
      ∃ el2, pathFoldCols items el validate = Except.ok (el2, validate) ∧
        el2.colValues c = el.colValues c ∧
        el2.hasDim c = el.hasDim c := by
  induction items with
  | nil => intro el validate c _ _ _ _; exact ⟨el, rfl, rfl, rfl⟩
  | cons ci rest ih =>
    intro el validate c hnd habsAll hok hc
    rw [List.map_cons, List.nodup_cons] at hnd
    obtain ⟨hhead, hndr⟩ := hnd
    rw [List.map_cons] at hc
    have hne : ci.1 ≠ c := fun hh => hc (hh ▸ List.mem_cons_self _ _)
    have hrest : c ∉ rest.map Prod.fst := fun hh => hc (List.mem_cons_of_mem _ hh)
    have hd : el.hasDim ci.1 = false := habsAll ci (List.mem_cons_self _ _)
    obtain ⟨w, hw⟩ := hok ci (List.mem_cons_self _ _)
    have step : pathFoldCols (ci :: rest) el validate
        = pathFoldCols rest (el.add_dimension ci.1 0 w true) validate := by
      simp [pathFoldCols, hd, hw, hvBind_ok]
    rw [step]
    have habsAll1 : ∀ cj ∈ rest, (el.add_dimension ci.1 0 w true).hasDim cj.1 = false := by
      intro cj hcj
      have hcjne : ci.1 ≠ cj.1 := fun hh =>
        hhead (hh ▸ (List.mem_map_of_mem Prod.fst hcj : cj.1 ∈ _))
      rw [pathAdd_hasDim_ne el ci.1 cj.1 0 w true hcjne]
      exact habsAll cj (List.mem_cons_of_mem _ hcj)
    have hok1 : ∀ cj ∈ rest, ∃ w2, pathAnnDefault cj.2 = Except.ok w2 :=
      fun cj hcj => hok cj (List.mem_cons_of_mem _ hcj)
    obtain ⟨el2, heq, hlook, hhd⟩ :=
      ih (el.add_dimension ci.1 0 w true) validate c hndr habsAll1 hok1 hrest
    refine ⟨el2, heq, ?_, ?_⟩
    · rw [hlook, pathAdd_colValues_ne el ci.1 c 0 w true hne]
    · rw [hhd, pathAdd_hasDim_ne el ci.1 c 0 w true hne]

theorem pathFoldCols_fill (items : List (String × Option PyVal)) :
    ∀ (el : PathElement) (validate : List String) (c : String) (ov : Option PyVal)
      (v : PyVal),
      (items.map Prod.fst).Nodup →
      (∀ ci ∈ items, el.hasDim ci.1 = false) →
      (∀ ci ∈ items, ∃ w, pathAnnDefault ci.2 = Except.ok w) →
      (c, ov) ∈ items → pathAnnDefault ov = Except.ok v →
      ∃ el2, pathFoldCols items el validate = Except.ok (el2, validate) ∧
        el2.colValues c
          = el.data.map (fun p => some (ColVal.arr (List.replicate p.nv v))) ∧
        el2.hasDim c = true := by
  induction items with
  | nil => intro el validate c ov v _ _ _ hmem _; cases hmem
  | cons ci rest ih =>
    intro el validate c ov v hnd habsAll hok hmem hv
    rw [List.map_cons, List.nodup_cons] at hnd
    obtain ⟨hhead, hndr⟩ := hnd
    have hd : el.hasDim ci.1 = false := habsAll ci (List.mem_cons_self _ _)
    obtain ⟨w, hw⟩ := hok ci (List.mem_cons_self _ _)
    have step : pathFoldCols (ci :: rest) el validate
        = pathFoldCols rest (el.add_dimension ci.1 0 w true) validate := by
      simp [pathFoldCols, hd, hw, hvBind_ok]
    rw [step]
    have habsAll1 : ∀ cj ∈ rest, (el.add_dimension ci.1 0 w true).hasDim cj.1 = false := by
      intro cj hcj
      have hcjne : ci.1 ≠ cj.1 := fun hh =>
        hhead (hh ▸ (List.mem_map_of_mem Prod.fst hcj : cj.1 ∈ _))
      rw [pathAdd_hasDim_ne el ci.1 cj.1 0 w true hcjne]
      exact habsAll cj (List.mem_cons_of_mem _ hcj)
    have hok1 : ∀ cj ∈ rest, ∃ w2, pathAnnDefault cj.2 = Except.ok w2 :=
      fun cj hcj => hok cj (List.mem_cons_of_mem _ hcj)
    rcases List.mem_cons.mp hmem with heq | hrest
    · obtain ⟨rfl, rfl⟩ : ci.1 = c ∧ ci.2 = ov := by
        cases ci; cases heq; exact ⟨rfl, rfl⟩
      have hwv : w = v := by
        rw [hw] at hv; exact (Except.ok.inj hv)
      subst hwv
      obtain ⟨el2, heq2, hlook, hhd⟩ :=
        pathFoldCols_preserve rest (el.add_dimension ci.1 0 w true) validate ci.1
          hndr habsAll1 hok1 hhead
      refine ⟨el2, heq2, ?_, ?_⟩
      · rw [hlook, pathAdd_colValues_self]
      · rw [hhd, pathAdd_hasDim_self]
    · have hkey : c ∈ rest.map Prod.fst := List.mem_map_of_mem Prod.fst hrest
      have hne : ci.1 ≠ c := fun hh => hhead (hh ▸ hkey)
      obtain ⟨el2, heq2, hlook, hhd⟩ :=
        ih (el.add_dimension ci.1 0 w true) validate c ov v hndr habsAll1 hok1 hrest hv
      refine ⟨el2, heq2, ?_, hhd⟩
      rw [hlook]
      exact pathAdd_nvShape el ci.1 0 w true
        (fun n => some (ColVal.arr (List.replicate n v)))

theorem pathVertexFoldCols_preserve (items : List (String × Option PyVal)) :
    ∀ (el : PathElement) (c : String),
      el.hasDim c = true →
      (∀ ci ∈ items, ∃ w, pathAnnDefault ci.2 = Except.ok w) →
      ∃ el2, pathVertexFoldCols items el = Except.ok el2 ∧
        el2.colValues c = el.colValues c := by
  induction items with
  | nil => intro el c _ _; exact ⟨el, rfl, rfl⟩
  | cons ci rest ih =>
    intro el c hdim hok
    have hok1 : ∀ cj ∈ rest, ∃ w2, pathAnnDefault cj.2 = Except.ok w2 :=
      fun cj hcj => hok cj (List.mem_cons_of_mem _ hcj)
    by_cases hd : el.hasDim ci.1 = true
    · have step : pathVertexFoldCols (ci :: rest) el = pathVertexFoldCols rest el := by
        simp [pathVertexFoldCols, hd]
      rw [step]; exact ih el c hdim hok1
    · have hd' : el.hasDim ci.1 = false := by simpa using hd
      have hne : ci.1 ≠ c := fun hh => by rw [hh, hdim] at hd'; cases hd'
      obtain ⟨w, hw⟩ := hok ci (List.mem_cons_self _ _)
      have step : pathVertexFoldCols (ci :: rest) el
          = pathVertexFoldCols rest (el.add_dimension ci.1 0 w true) := by
        simp [pathVertexFoldCols, hd', hw, hvBind_ok]
      rw [step]
      have hdim1 : (el.add_dimension ci.1 0 w true).hasDim c = true := by
        rw [pathAdd_hasDim_ne el ci.1 c 0 w true hne]; exact hdim
      obtain ⟨el2, heq, hlook⟩ := ih (el.add_dimension ci.1 0 w true) c hdim1 hok1
      refine ⟨el2, heq, ?_⟩
      rw [hlook, pathAdd_colValues_ne el ci.1 c 0 w true hne]

theorem dictItems_keys (entries : List (String × PyVal)) :
    (AnnSpec.dictSpec entries).items.map Prod.fst = entries.map Prod.fst := by
  simp only [AnnSpec.items, List.map_map]
  rfl

/-- Claim C4 counterexample: PointAnnotator._init_element stores the
default-value factory itself as the fill value instead of the result of
calling it.  With a dict mapping the column size to a factory returning 1,
the initialized element's size column holds the factory, not 1. -/
theorem pointInit_factory_uncalled_cex :
    pyCall (PyVal.callable (PyVal.int 1)) = Except.ok (PyVal.int 1) ∧
    (pointInitElement (AnnSpec.dictSpec [("size", PyVal.callable (PyVal.int 1))])
        (some exPoints)).colLookup "size"
      = some [PyVal.callable (PyVal.int 1)] ∧
    (some [PyVal.callable (PyVal.int 1)] : Option (List PyVal))
      ≠ some [PyVal.int 1] :=
  ⟨rfl, rfl, by decide⟩

/-- Claim C4 (amended): for an annotations spec given as a mapping from
column name to default value, every declared column not already present
exists on the initialized element; PointAnnotator and BoxAnnotator fill it
with the mapping's value itself, uncalled, while PathAnnotator fills it
with the result of calling the value as a factory (and, per claim C1,
PathAnnotator initialization only completes when no declared column is
already present). -/
theorem ann_default_fill_amended :
    (∀ (entries : List (String × PyVal)) (el : PointsElement) (c : String) (v : PyVal),
        (entries.map Prod.fst).Nodup → (c, v) ∈ entries → el.hasDim c = false →
        (pointInitElement (AnnSpec.dictSpec entries) (some el)).colLookup c
          = some (List.replicate el.n v)) ∧
    (∀ (entries : List (String × PyVal)) (el : PathElement) (c : String) (v : PyVal),
        (entries.map Prod.fst).Nodup → (c, v) ∈ entries → el.hasDim c = false →
        (boxInitElement (AnnSpec.dictSpec entries) (some el)).colValues c
          = el.data.map (fun p => some (ColVal.arr (List.replicate p.nv v)))) ∧
    (∀ (entries : List (String × PyVal)) (vAnns : AnnSpec) (el : PathElement)
        (c : String) (v r : PyVal),
        (entries.map Prod.fst).Nodup →
        (∀ p ∈ entries, el.hasDim p.1 = false) →
        (∀ p ∈ entries, ∃ w, pyCall p.2 = Except.ok w) →
        (∀ ci ∈ vAnns.items, ∃ w, pathAnnDefault ci.2 = Except.ok w) →
        (c, v) ∈ entries → pyCall v = Except.ok r →
        ∃ el2, pathInitElement (AnnSpec.dictSpec entries) vAnns (some el)
            = Except.ok el2 ∧
          el2.colValues c
            = el.data.map (fun p => some (ColVal.arr (List.replicate p.nv r)))) := by
  refine ⟨?_, ?_, ?_⟩
  · intro entries el c v hnd hmem habs
    have hnd' : ((AnnSpec.dictSpec entries).items.map Prod.fst).Nodup := by
      rw [dictItems_keys]; exact hnd
    have hmem' : (c, some v) ∈ (AnnSpec.dictSpec entries).items :=
      List.mem_map_of_mem _ hmem
    exact pointFoldCols_fill (AnnSpec.dictSpec entries).items el c (some v)
      hnd' hmem' habs
  · intro entries el c v hnd hmem habs
    have hnd' : ((AnnSpec.dictSpec entries).items.map Prod.fst).Nodup := by
      rw [dictItems_keys]; exact hnd
    have hmem' : (c, some v) ∈ (AnnSpec.dictSpec entries).items :=
      List.mem_map_of_mem _ hmem
    exact boxFoldCols_fill (AnnSpec.dictSpec entries).items el c (some v)
      hnd' hmem' habs
  · intro entries vAnns el c v r hnd habs hok hokv hmem hv
    have hnd' : ((AnnSpec.dictSpec entries).items.map Prod.fst).Nodup := by
      rw [dictItems_keys]; exact hnd
    have habs' : ∀ ci ∈ (AnnSpec.dictSpec entries).items, el.hasDim ci.1 = false := by
      intro ci hci
      obtain ⟨p, hp, rfl⟩ := List.mem_map.mp hci
      exact habs p hp
    have hok' : ∀ ci ∈ (AnnSpec.dictSpec entries).items,
        ∃ w, pathAnnDefault ci.2 = Except.ok w := by
      intro ci hci
      obtain ⟨p, hp, rfl⟩ := List.mem_map.mp hci
      exact hok p hp
    have hmem' : (c, some v) ∈ (AnnSpec.dictSpec entries).items :=
      List.mem_map_of_mem _ hmem
    obtain ⟨el2, hfold, hlook, hhd⟩ :=
      pathFoldCols_fill (AnnSpec.dictSpec entries).items el [] c (some v) r
        hnd' habs' hok' hmem' hv
    obtain ⟨el3, hvert, hlook3⟩ :=
      pathVertexFoldCols_preserve vAnns.items el2 c hhd hokv
    have hmap : (([] : List String).mapM (fun _c => pathAnnotatorGetattr "element"))
        = Except.ok [] := rfl
    refine ⟨el3, ?_, ?_⟩
    · simp [pathInitElement, hfold, hvert, hmap, hvBind_ok, PathElement.options]
      rfl
    · rw [hlook3, hlook]

/-- Witness for the amended claim C4 at concrete inputs: a Points element
gains a size column holding the uncalled factory, a box Path element gains
a group column holding the raw value 5 on both vertices, and a
PathAnnotator Path element gains a color column holding the called factory
result A on both vertices. -/
theorem ann_default_fill_amended_witness :
    (pointInitElement (AnnSpec.dictSpec [("size", PyVal.callable (PyVal.int 1))])
        (some exPoints)).colLookup "size"
      = some (List.replicate exPoints.n (PyVal.callable (PyVal.int 1))) ∧
    (boxInitElement (AnnSpec.dictSpec [("group", PyVal.int 5)])
        (some exPathPlain)).colValues "group"
      = exPathPlain.data.map
          (fun p => some (ColVal.arr (List.replicate p.nv (PyVal.int 5)))) ∧
    (∃ el2, pathInitElement (AnnSpec.dictSpec [("color", PyVal.callable (PyVal.str "A"))])
          (AnnSpec.listSpec []) (some exPathPlain) = Except.ok el2 ∧
        el2.colValues "color"
          = exPathPlain.data.map
              (fun p => some (ColVal.arr (List.replicate p.nv (PyVal.str "A"))))) := by
  refine ⟨?_, ?_, ?_⟩
  · exact ann_default_fill_amended.1 [("size", PyVal.callable (PyVal.int 1))]
      exPoints "size" (PyVal.callable (PyVal.int 1)) (by decide) (by decide) (by decide)
  · exact ann_default_fill_amended.2.1 [("group", PyVal.int 5)]
      exPathPlain "group" (PyVal.int 5) (by decide) (by decide) (by decide)
  · exact ann_default_fill_amended.2.2 [("color", PyVal.callable (PyVal.str "A"))]
      (AnnSpec.listSpec []) exPathPlain "color" (PyVal.callable (PyVal.str "A"))
      (PyVal.str "A") (by decide) (by decide)
      (by
        intro p hp
        rw [List.mem_singleton] at hp
        subst hp
        exact ⟨PyVal.str "A", rfl⟩)
      (by
        intro ci hci
        simp [AnnSpec.items] at hci)
      (by decide) rfl

end HV
